import Mathlib

/-!
Verification of the WebSocket relay layer
(`mitmproxy/proxy/layers/websocket.py`).

The Python module is shallowly embedded: byte strings become `List Nat`,
the `Fragmentizer` class becomes a structure with its slicing algorithm
translated to recursive functions over lists, and the event-processing
body of `WebsocketLayer.relay_messages` becomes a pure transition
function from a layer state and one wsproto event to a new state plus a
list of emitted commands.  The wsproto library itself (wire
decode/encode, its `ConnectionState` and `CloseReason` enumerations) is
an external dependency of the module; its event vocabulary and
enumerations are mirrored here as plain inductive types, and decoding is
represented by its *result* (a list of events, or a raised error).
-/

namespace Mitmproxy

/-- Byte strings (`bytes` in Python) are modelled as lists of byte values. -/
abbrev Bytes := List Nat

/-! ## Fragmentizer (`websocket.py`, class `Fragmentizer`) -/

/-- One outgoing message part, the embedding of the
`wsproto.events.TextMessage` / `BytesMessage` value produced by
`Fragmentizer.msg`.  `data` is the byte slice handed to `msg`; for text
parts the lossy UTF-8 decode performed by the external wsproto event
constructor is not re-modelled, the part keeps the byte payload and the
text flag. -/
structure MsgPart where
  data : Bytes
  isText : Bool
  finished : Bool

/-- Embedding of the `Fragmentizer` class: the recorded fragment-length
profile and the text flag. -/
structure Fragmentizer where
  fragment_lengths : List Nat
  is_text : Bool

/-- `Fragmentizer.FRAGMENT_SIZE = 4000` ("a bit less than 4kb to
accommodate for headers"). -/
def Fragmentizer.FRAGMENT_SIZE : Nat := 4000

/-- Embedding of `Fragmentizer.__init__`: `assert fragments` fails on an
empty fragment list (modelled as `none`); otherwise the byte lengths of
the fragments are recorded. -/
def Fragmentizer.make (fragments : List Bytes) (is_text : Bool) : Option Fragmentizer :=
  if fragments = [] then none
  else some ⟨fragments.map (fun x => x.length), is_text⟩

/-- Embedding of `Fragmentizer.msg`. -/
def Fragmentizer.msg (f : Fragmentizer) (data : Bytes) (message_finished : Bool) : MsgPart :=
  ⟨data, f.is_text, message_finished⟩

/-- The replay loop of `Fragmentizer.__call__` (the branch reusing the
recorded sizes): the argument list is `fragment_lengths[:-1]`; each
length slices a non-final part off the front, and the remainder
`content[offset:]` becomes the final part. -/
def replayGo (f : Fragmentizer) : List Nat → Bytes → List MsgPart
  | [], rest => [f.msg rest true]
  | fl :: fls, rest => f.msg (rest.take fl) false :: replayGo f fls (rest.drop fl)

/-- The re-chunking loop of `Fragmentizer.__call__` (the branch for
modified content): while more than `FRAGMENT_SIZE` bytes remain, emit a
non-final part of exactly `FRAGMENT_SIZE` bytes; the remaining tail is
the final part.  This is the Python `while offset < len(content) -
FRAGMENT_SIZE` loop expressed as recursion on the unsent tail. -/
def rechunkGo (f : Fragmentizer) (content : Bytes) : List MsgPart :=
  if _h : content.length ≤ Fragmentizer.FRAGMENT_SIZE then
    [f.msg content true]
  else
    f.msg (content.take Fragmentizer.FRAGMENT_SIZE) false ::
      rechunkGo f (content.drop Fragmentizer.FRAGMENT_SIZE)
termination_by content.length
decreasing_by
  simp only [List.length_drop, Fragmentizer.FRAGMENT_SIZE] at *
  omega

/-- Embedding of `Fragmentizer.__call__`: empty content produces no
parts; content whose length equals the recorded total replays the
original boundaries; otherwise the content is re-chunked into
`FRAGMENT_SIZE` pieces. -/
def Fragmentizer.call (f : Fragmentizer) (content : Bytes) : List MsgPart :=
  if content = [] then []
  else if content.length = f.fragment_lengths.sum then
    replayGo f f.fragment_lengths.dropLast content
  else
    rechunkGo f content

/-! ## Relay state machine (`websocket.py`, class `WebsocketLayer`)

The two fixed transport connections of the layer (`context.client` and
`context.server`) are identified by `ConnKind`; the layer pairs
`client_ws` with the client connection and `server_ws` with the server
connection, exactly as `WebsocketLayer.start` constructs them. -/

/-- Identity of one of the two proxied transport connections. -/
inductive ConnKind
  | client
  | server
deriving DecidableEq

/-- The `wsproto.ConnectionState` enumeration of the external protocol
library, mirrored verbatim. -/
inductive ConnectionState
  | CONNECTING
  | OPEN
  | REMOTE_CLOSING
  | LOCAL_CLOSING
  | CLOSED
  | REJECTING
deriving DecidableEq

/-- The wsproto events `relay_messages` dispatches on.  `message`
covers `TextMessage`/`BytesMessage` (for text the module stores
`data.encode()`, so `data` here is already the encoded bytes);
`request` stands for any other wsproto event class (e.g. the handshake
event `Request`), which falls through every `isinstance` branch to the
final `raise AssertionError`. -/
inductive WsEvent
  | message (data : Bytes) (isText : Bool) (finished : Bool)
  | ping (payload : Bytes)
  | pong (payload : Bytes)
  | closeConnection (code : Nat) (reason : String)
  | request

/-- `mitmproxy.websocket.WebSocketMessage` as used here: frame type,
origin, content, and the `killed` flag the message hook may set. -/
structure WebSocketMessage where
  typ : Bool        -- true = TEXT, false = BINARY (Opcode.TEXT / Opcode.BINARY)
  from_client : Bool
  content : Bytes
  killed : Bool

/-- Embedding of the `WebsocketConnection` wrapper: the wsproto
connection state plus the frame buffer for the message in flight.  The
underlying transport connection is determined by which slot of the
layer the codec occupies (client slot ↔ client connection). -/
structure WebsocketConnection where
  state : ConnectionState
  frame_buf : List Bytes

/-- The active `_handle_event` handler of the layer: `relay_messages`
or (after a close event) `done`. -/
inductive Handler
  | relayH
  | doneH

/-- The mutable state `relay_messages` touches: the active handler, the
two codecs and the Flow fields (message list, error, close metadata). -/
structure WebsocketLayer where
  handler : Handler
  client_ws : WebsocketConnection
  server_ws : WebsocketConnection
  messages : List WebSocketMessage
  flowError : Option String
  closed_by_client : Option Bool
  close_code : Option Nat
  close_reason : Option String

/-- Result of the message-interception hook on one completed message:
the (possibly edited) content and the `killed` flag.  The hook itself
is an external collaborator; it is passed in as a function from the
completed content to this outcome. -/
structure HookOutcome where
  content : Bytes
  killed : Bool

/-- Commands yielded by the layer: `sendData dst ev` is
`dst_ws.send2(ev)` (encode `ev` on the destination codec and send the
bytes on its connection), the rest are `CloseConnection`, `Log` and the
three hook commands the module yields. -/
inductive Command
  | sendData (dst : ConnKind) (ev : WsEvent)
  | closeConnection (c : ConnKind)
  | log (msg : String)
  | websocketMessageHook
  | websocketEndHook
  | websocketErrorHook

/-- Recognizer for the end hook command (used to count hook firings). -/
def isEndHook : Command → Bool
  | Command.websocketEndHook => true
  | _ => false

/-- Recognizer for the error hook command. -/
def isErrorHook : Command → Bool
  | Command.websocketErrorHook => true
  | _ => false

/-- The source codec of an event (`src_ws` in `relay_messages`). -/
def srcWs (st : WebsocketLayer) (from_client : Bool) : WebsocketConnection :=
  if from_client then st.client_ws else st.server_ws

/-- Replace the source codec (`src_ws` is mutated in place in Python). -/
def setSrcWs (st : WebsocketLayer) (from_client : Bool) (ws : WebsocketConnection) :
    WebsocketLayer :=
  if from_client then { st with client_ws := ws } else { st with server_ws := ws }

/-- The destination side of an event (`dst_ws` in `relay_messages`). -/
def dstKind (from_client : Bool) : ConnKind :=
  if from_client then ConnKind.server else ConnKind.client

/-- The symbolic name `wsproto.frame_protocol.CloseReason(code).name`
of the external protocol library, mirrored verbatim; `none` models the
`ValueError` raised for a code outside the enumeration. -/
def closeReasonName (code : Nat) : Option String :=
  if code = 1000 then some ("NORMAL_CLOSURE")
  else if code = 1001 then some ("GOING_AWAY")
  else if code = 1002 then some ("PROTOCOL_ERROR")
  else if code = 1003 then some ("UNSUPPORTED_DATA")
  else if code = 1005 then some ("NO_STATUS_RCVD")
  else if code = 1006 then some ("ABNORMAL_CLOSURE")
  else if code = 1007 then some ("INVALID_FRAME_PAYLOAD_DATA")
  else if code = 1008 then some ("POLICY_VIOLATION")
  else if code = 1009 then some ("MESSAGE_TOO_BIG")
  else if code = 1010 then some ("MANDATORY_EXT")
  else if code = 1011 then some ("INTERNAL_ERROR")
  else if code = 1012 then some ("SERVICE_RESTART")
  else if code = 1013 then some ("TRY_AGAIN_LATER")
  else if code = 1015 then some ("TLS_HANDSHAKE_FAILED")
  else none

/-- Embedding of `format_close_event`; the empty string models a
missing textual close reason (Python tests `if event.reason:`). -/
def format_close_event (code : Nat) (reason : String) : String :=
  let ret := match closeReasonName code with
    | some n => n
    | none => "UNKNOWN_ERROR=" ++ toString code
  if reason = "" then ret else ret ++ " (reason: " ++ reason ++ ")"

/-- The Python repr of the payload bytes in the ping/pong log line,
modelled by the list representation (the exact escape syntax of the
Python bytes literal is immaterial to the claims). -/
def reprBytes (b : Bytes) : String :=
  toString b

/-- The log line for a ping/pong frame: identifies the frame kind, the
originating side and the payload. -/
def pingPongLog (kind : String) (from_client : Bool) (payload : Bytes) : String :=
  "Received WebSocket " ++ kind ++ " from " ++
    (if from_client then "client" else "server") ++
    " (payload: " ++ reprBytes payload ++ ")"

/-- The commands emitted for one codec inside the close loop
`for ws in [self.server_ws, self.client_ws]`: the close event is
re-sent only while the codec is OPEN or REMOTE_CLOSING, and a
transport close command is emitted unconditionally. -/
def connShutdown (ws : WebsocketConnection) (kind : ConnKind) (code : Nat)
    (reason : String) : List Command :=
  (if ws.state = ConnectionState.OPEN ∨ ws.state = ConnectionState.REMOTE_CLOSING
   then [Command.sendData kind (WsEvent.closeConnection code reason)] else [])
  ++ [Command.closeConnection kind]

/-- The `wsproto.events.CloseConnection` branch of `relay_messages`:
record close metadata, run the fixed-order loop over
`[self.server_ws, self.client_ws]`, classify the close code, switch
the handler to `done`. -/
def handleClose (st : WebsocketLayer) (from_client : Bool) (code : Nat)
    (reason : String) : WebsocketLayer × List Command :=
  let stMeta := { st with closed_by_client := some from_client,
                          close_code := some code,
                          close_reason := some reason }
  let closeCmds := connShutdown st.server_ws ConnKind.server code reason ++
                   connShutdown st.client_ws ConnKind.client code reason
  if code = 1000 ∨ code = 1001 ∨ code = 1005 then
    ({ stMeta with handler := Handler.doneH }, closeCmds ++ [Command.websocketEndHook])
  else
    ({ stMeta with handler := Handler.doneH,
                   flowError := some ("WebSocket Error: " ++ format_close_event code reason) },
     closeCmds ++ [Command.websocketErrorHook])

/-- The `wsproto.events.Message` branch of `relay_messages`: append the
fragment to the source frame buffer; on the final fragment build the
content, construct the `Fragmentizer` (whose `assert fragments` is the
`Option` in `Fragmentizer.make`), clear the buffer, append the message
to the flow, fire the message hook, and, unless killed, forward the
re-fragmented content to the destination codec. -/
def handleMessage (st : WebsocketLayer) (from_client : Bool) (data : Bytes)
    (isText finished : Bool) (hook : Bytes → HookOutcome) :
    Except String (WebsocketLayer × List Command) :=
  let src := srcWs st from_client
  let buf := src.frame_buf ++ [data]
  if finished then
    match Fragmentizer.make buf isText with
    | none => Except.error ("AssertionError")
    | some fragmentizer =>
      let outcome := hook buf.flatten
      let message : WebSocketMessage := ⟨isText, from_client, outcome.content, outcome.killed⟩
      let st2 := { setSrcWs st from_client { src with frame_buf := [] } with
                   messages := st.messages ++ [message] }
      let sends := if outcome.killed then []
        else (fragmentizer.call outcome.content).map
          (fun p => Command.sendData (dstKind from_client)
            (WsEvent.message p.data p.isText p.finished))
      Except.ok (st2, Command.websocketMessageHook :: sends)
  else
    Except.ok (setSrcWs st from_client { src with frame_buf := buf }, [])

/-- Dispatch of one wsproto event inside the `for ws_event in
src_ws.events()` loop of `relay_messages`.  The fall-through branch
re-raises (`raise AssertionError(...)`), modelled as `Except.error`. -/
def handleWsEvent (st : WebsocketLayer) (from_client : Bool) (ev : WsEvent)
    (hook : Bytes → HookOutcome) : Except String (WebsocketLayer × List Command) :=
  match ev with
  | WsEvent.message data isText finished => handleMessage st from_client data isText finished hook
  | WsEvent.ping payload =>
      Except.ok (st, [Command.log (pingPongLog ("ping") from_client payload),
                      Command.sendData (dstKind from_client) (WsEvent.ping payload)])
  | WsEvent.pong payload =>
      Except.ok (st, [Command.log (pingPongLog ("pong") from_client payload),
                      Command.sendData (dstKind from_client) (WsEvent.pong payload)])
  | WsEvent.closeConnection code reason =>
      Except.ok (handleClose st from_client code reason)
  | WsEvent.request => Except.error ("AssertionError: Unexpected WebSocket event")

/-- The event loop of `relay_messages` over the events one
`receive_data` call produced. -/
def processEvents (st : WebsocketLayer) (from_client : Bool)
    (hook : Bytes → HookOutcome) : List WsEvent → Except String (WebsocketLayer × List Command)
  | [] => Except.ok (st, [])
  | ev :: rest =>
    match handleWsEvent st from_client ev hook with
    | Except.error e => Except.error e
    | Except.ok (st2, cmds) =>
      match processEvents st2 from_client hook rest with
      | Except.error e => Except.error e
      | Except.ok (st3, cmds2) => Except.ok (st3, cmds ++ cmds2)

/-- Embedding of `WebsocketLayer.relay_messages` for one inbound
transport event.  `decoded` is the outcome of the external
`src_ws.receive_data(...)` call: the produced wsproto events, or the
error the library raises on malformed wire bytes.  `relay_messages`
contains no `try`/`except`, so a decode error propagates unchanged. -/
def relay_messages (st : WebsocketLayer) (from_client : Bool)
    (decoded : Except String (List WsEvent)) (hook : Bytes → HookOutcome) :
    Except String (WebsocketLayer × List Command) :=
  match decoded with
  | Except.error e => Except.error e
  | Except.ok evs => processEvents st from_client hook evs

/-- An inbound transport event as delivered to the layer handlers. -/
inductive NetEvent
  | dataReceived (fromConn : ConnKind) (data : Bytes)
  | connectionClosed (fromConn : ConnKind)

/-- Embedding of `WebsocketLayer.done`: `yield from ()` — every
further event is accepted and discarded with no commands. -/
def done (st : WebsocketLayer) (_ev : NetEvent) : WebsocketLayer × List Command :=
  (st, [])

/-! ### Fragmentizer lemmas -/

theorem replayGo_map_length (f : Fragmentizer) (ls : List Nat) (rest : Bytes)
    (hne : ls ≠ []) (h : rest.length = ls.sum) :
    (replayGo f ls.dropLast rest).map (fun p => p.data.length) = ls := by
  induction ls generalizing rest with
  | nil => exact absurd rfl hne
  | cons a t ih =>
    cases t with
    | nil =>
      simp only [List.dropLast_single, replayGo, Fragmentizer.msg, List.map_cons, List.map_nil]
      simp only [List.sum_cons, List.sum_nil, Nat.add_zero] at h
      simp [h]
    | cons b t2 =>
      have hsum : rest.length = a + (b :: t2).sum := by
        simpa [List.sum_cons] using h
      have h1 : (rest.take a).length = a := by
        simp only [List.length_take]
        omega
      have h2 : (rest.drop a).length = (b :: t2).sum := by
        simp only [List.length_drop]
        omega
      simp only [List.dropLast_cons₂, replayGo, Fragmentizer.msg, List.map_cons,
        List.cons.injEq]
      exact ⟨h1, ih (rest.drop a) (by simp) h2⟩

theorem replayGo_map_finished (f : Fragmentizer) (ds : List Nat) (rest : Bytes) :
    (replayGo f ds rest).map MsgPart.finished =
      List.replicate ds.length false ++ [true] := by
  induction ds generalizing rest with
  | nil => simp [replayGo, Fragmentizer.msg]
  | cons a t ih => simp [replayGo, Fragmentizer.msg, ih, List.replicate_succ]

theorem rechunkGo_profile (f : Fragmentizer) (content : Bytes) (hne : content ≠ []) :
    ∃ k, (rechunkGo f content).map (fun p => (p.data.length, p.finished)) =
      List.replicate k (Fragmentizer.FRAGMENT_SIZE, false) ++
        [((if content.length % Fragmentizer.FRAGMENT_SIZE = 0 then Fragmentizer.FRAGMENT_SIZE
           else content.length % Fragmentizer.FRAGMENT_SIZE), true)] := by
  generalize hn : content.length = n
  induction n using Nat.strong_induction_on generalizing content with
  | _ n ih =>
    have hn0 : content.length ≠ 0 := by
      simpa [List.length_eq_zero] using hne
    by_cases hle : content.length ≤ Fragmentizer.FRAGMENT_SIZE
    · refine ⟨0, ?_⟩
      rw [rechunkGo, dif_pos hle]
      simp only [Fragmentizer.msg, List.map_cons, List.map_nil, List.replicate_zero,
        List.nil_append, List.cons.injEq, Prod.mk.injEq, and_true]
      rw [hn] at hle hn0 ⊢
      simp only [Fragmentizer.FRAGMENT_SIZE] at hle ⊢
      split <;> omega
    · rw [rechunkGo, dif_neg hle]
      rw [hn] at hle hn0
      have hlen : (content.drop Fragmentizer.FRAGMENT_SIZE).length =
          n - Fragmentizer.FRAGMENT_SIZE := by
        simp [List.length_drop, hn]
      have hdne : content.drop Fragmentizer.FRAGMENT_SIZE ≠ [] := by
        rw [← List.length_pos, hlen]
        simp only [Fragmentizer.FRAGMENT_SIZE] at hle ⊢
        omega
      obtain ⟨k, hk⟩ := ih (n - Fragmentizer.FRAGMENT_SIZE)
        (by simp only [Fragmentizer.FRAGMENT_SIZE] at hle ⊢; omega)
        (content.drop Fragmentizer.FRAGMENT_SIZE) hdne hlen
      have hmod : (n - Fragmentizer.FRAGMENT_SIZE) % Fragmentizer.FRAGMENT_SIZE =
          n % Fragmentizer.FRAGMENT_SIZE := by
        simp only [Fragmentizer.FRAGMENT_SIZE] at hle ⊢
        omega
      rw [hmod] at hk
      refine ⟨k + 1, ?_⟩
      simp only [Fragmentizer.msg, List.map_cons, hk, List.replicate_succ, List.cons_append,
        List.cons.injEq, Prod.mk.injEq, and_true, and_self]
      simp only [List.length_take, hn, Fragmentizer.FRAGMENT_SIZE] at hle ⊢
      omega

/-! ## Claims C1, C2, C9 (Fragmentizer) -/

/-- Claim C1 (corrected, counterexample): the claim as stated fails for
a message whose content is empty while the recorded fragment profile is
`[0]` (a single empty fragment, as produced by an empty final frame):
the content length equals the profile sum, yet `Fragmentizer.__call__`
yields zero parts rather than one zero-length final part. -/
theorem exact_replay_counterexample :
    ([] : Bytes).length = (Fragmentizer.mk [0] false).fragment_lengths.sum ∧
    ((Fragmentizer.mk [0] false).call []).map (fun p => p.data.length) ≠
      (Fragmentizer.mk [0] false).fragment_lengths := by
  decide

/-- Claim C1 (amended): for every message with NON-EMPTY content whose
length equals the sum of the recorded fragment lengths,
`Fragmentizer.__call__` yields parts whose payload lengths equal the
original fragment-length profile in order, with every part except the
last marked non-final and only the last marked final. -/
theorem exact_replay_profile (f : Fragmentizer) (content : Bytes)
    (hne : content ≠ []) (hlen : content.length = f.fragment_lengths.sum) :
    ((f.call content).map (fun p => p.data.length) = f.fragment_lengths) ∧
    ((f.call content).map MsgPart.finished =
      List.replicate (f.fragment_lengths.length - 1) false ++ [true]) := by
  have hfl : f.fragment_lengths ≠ [] := by
    intro h0
    rw [h0] at hlen
    simp only [List.sum_nil, List.length_eq_zero] at hlen
    exact hne hlen
  have hcall : f.call content = replayGo f f.fragment_lengths.dropLast content := by
    simp [Fragmentizer.call, hne, hlen]
  rw [hcall]
  refine ⟨replayGo_map_length f f.fragment_lengths content hfl hlen, ?_⟩
  rw [replayGo_map_finished, List.length_dropLast]

/-- Claim C1 witness: content "hi!" with profile [2, 1]. -/
theorem exact_replay_profile_witness :
    (((Fragmentizer.mk [2, 1] true).call [104, 105, 33]).map (fun p => p.data.length) =
      (Fragmentizer.mk [2, 1] true).fragment_lengths) ∧
    (((Fragmentizer.mk [2, 1] true).call [104, 105, 33]).map MsgPart.finished =
      List.replicate ((Fragmentizer.mk [2, 1] true).fragment_lengths.length - 1) false ++
        [true]) :=
  exact_replay_profile (Fragmentizer.mk [2, 1] true) [104, 105, 33] (by decide) (by decide)

/-- Claim C2 (confirmed): for every non-empty content whose length
differs from the sum of the recorded fragment lengths,
`Fragmentizer.__call__` yields some number `k` of non-final parts of
exactly `FRAGMENT_SIZE = 4000` bytes followed by one final part of
`content_length mod 4000` bytes (or 4000 when the length is a non-zero
multiple of 4000); in particular exactly one part, the last, is final. -/
theorem rechunk_bound (f : Fragmentizer) (content : Bytes)
    (hne : content ≠ []) (hdiff : content.length ≠ f.fragment_lengths.sum) :
    ∃ k, (f.call content).map (fun p => (p.data.length, p.finished)) =
      List.replicate k (Fragmentizer.FRAGMENT_SIZE, false) ++
        [((if content.length % Fragmentizer.FRAGMENT_SIZE = 0 then Fragmentizer.FRAGMENT_SIZE
           else content.length % Fragmentizer.FRAGMENT_SIZE), true)] := by
  have hcall : f.call content = rechunkGo f content := by
    simp [Fragmentizer.call, hne, hdiff]
  rw [hcall]
  exact rechunkGo_profile f content hne

/-- Claim C2 witness: two bytes of content against a recorded profile
of total length 1 re-chunk into a single final part of 2 bytes. -/
theorem rechunk_bound_witness :
    ∃ k, ((Fragmentizer.mk [1] false).call [7, 7]).map (fun p => (p.data.length, p.finished)) =
      List.replicate k (Fragmentizer.FRAGMENT_SIZE, false) ++
        [((if ([7, 7] : Bytes).length % Fragmentizer.FRAGMENT_SIZE = 0 then
            Fragmentizer.FRAGMENT_SIZE
           else ([7, 7] : Bytes).length % Fragmentizer.FRAGMENT_SIZE), true)] :=
  rechunk_bound (Fragmentizer.mk [1] false) [7, 7] (by decide) (by decide)

/-! ### Relay lemmas -/

theorem Fragmentizer.make_append (xs : List Bytes) (d : Bytes) (t : Bool) :
    Fragmentizer.make (xs ++ [d]) t =
      some ⟨(xs ++ [d]).map (fun x => x.length), t⟩ := by
  simp [Fragmentizer.make]

/-- Unfolding of `handleWsEvent` on a final message fragment: the
buffer is cleared, the (hook-edited) message is appended to the flow,
and the hook command is followed by the re-fragmented send commands
unless the hook killed the message. -/
theorem handleMessage_finished (st : WebsocketLayer) (fc : Bool) (data : Bytes)
    (isText : Bool) (hook : Bytes → HookOutcome) :
    handleWsEvent st fc (WsEvent.message data isText true) hook =
      Except.ok
        ({ setSrcWs st fc { srcWs st fc with frame_buf := [] } with
           messages := st.messages ++
             [⟨isText, fc, (hook ((srcWs st fc).frame_buf ++ [data]).flatten).content,
               (hook ((srcWs st fc).frame_buf ++ [data]).flatten).killed⟩] },
         Command.websocketMessageHook ::
           (if (hook ((srcWs st fc).frame_buf ++ [data]).flatten).killed then []
            else ((Fragmentizer.mk (((srcWs st fc).frame_buf ++ [data]).map
                     (fun x => x.length)) isText).call
                     (hook ((srcWs st fc).frame_buf ++ [data]).flatten).content).map
              (fun p => Command.sendData (dstKind fc)
                (WsEvent.message p.data p.isText p.finished)))) := by
  simp [handleWsEvent, handleMessage, Fragmentizer.make_append]

theorem connShutdown_hook_free (ws : WebsocketConnection) (kind : ConnKind)
    (code : Nat) (reason : String) :
    (connShutdown ws kind code reason).countP isEndHook = 0 ∧
    (connShutdown ws kind code reason).countP isErrorHook = 0 := by
  unfold connShutdown
  split <;> simp [List.countP_cons, isEndHook, isErrorHook]

/-! ## Claims C3 to C8, C10 (relay state machine) -/

/-- A codec in the OPEN state with an empty frame buffer. -/
def wsOpenConn : WebsocketConnection := ⟨ConnectionState.OPEN, []⟩

/-- A freshly started layer: relaying, both codecs OPEN, empty flow. -/
def stBothOpen : WebsocketLayer :=
  ⟨Handler.relayH, wsOpenConn, wsOpenConn, [], none, none, none, none⟩

/-- A message hook that leaves content unchanged and kills nothing. -/
def hookId : Bytes → HookOutcome := fun b => ⟨b, false⟩

/-- Claim C3 (confirmed): a close event with code 1000, 1001 or 1005
fires exactly the session-end hook and leaves the flow error field
untouched; any other close code fires exactly the session-error hook
and sets the error field to a description built from the symbolic close
reason, or from an unknown-error tag embedding the raw code when the
code is outside the `CloseReason` enumeration, suffixed with the
textual reason when one is present. -/
theorem close_classification (st : WebsocketLayer) (from_client : Bool) (code : Nat)
    (reason : String) (hook : Bytes → HookOutcome) :
    ∃ st2 cmds,
      handleWsEvent st from_client (WsEvent.closeConnection code reason) hook =
        Except.ok (st2, cmds) ∧
      (if code = 1000 ∨ code = 1001 ∨ code = 1005 then
        cmds.countP isEndHook = 1 ∧ cmds.countP isErrorHook = 0 ∧
          st2.flowError = st.flowError
      else
        cmds.countP isErrorHook = 1 ∧ cmds.countP isEndHook = 0 ∧
          st2.flowError = some ("WebSocket Error: " ++ format_close_event code reason) ∧
          format_close_event code reason =
            (if reason = "" then
              (match closeReasonName code with
               | some n => n
               | none => "UNKNOWN_ERROR=" ++ toString code)
             else
              (match closeReasonName code with
               | some n => n
               | none => "UNKNOWN_ERROR=" ++ toString code) ++
                " (reason: " ++ reason ++ ")")) := by
  refine ⟨(handleClose st from_client code reason).1,
          (handleClose st from_client code reason).2, rfl, ?_⟩
  obtain ⟨hs1, hs2⟩ := connShutdown_hook_free st.server_ws ConnKind.server code reason
  obtain ⟨hc1, hc2⟩ := connShutdown_hook_free st.client_ws ConnKind.client code reason
  unfold handleClose
  by_cases h : code = 1000 ∨ code = 1001 ∨ code = 1005 <;>
    simp [h, List.countP_append, List.countP_cons, hs1, hs2, hc1, hc2,
      isEndHook, isErrorHook, format_close_event]

/-- Claim C4 (corrected, counterexample): a decode fault from the
external library (malformed wire bytes) and the unexpected-event branch
both surface as a raised exception out of `relay_messages`: the layer
emits no close commands, fires no session-error hook and does not
transition to DONE; the claimed graceful handling does not exist. -/
theorem decode_fault_counterexample :
    relay_messages stBothOpen true (Except.error ("RemoteProtocolError")) hookId =
      Except.error ("RemoteProtocolError") ∧
    handleWsEvent stBothOpen true WsEvent.request hookId =
      Except.error ("AssertionError: Unexpected WebSocket event") :=
  ⟨rfl, rfl⟩

/-- Claim C4 (amended): for every decode fault and for every unexpected
event kind, `relay_messages` re-raises (returns the error unchanged,
emitting no commands), rather than closing the connections, firing the
session-error hook or transitioning to DONE. -/
theorem decode_fault_propagates (st : WebsocketLayer) (from_client : Bool) (e : String)
    (hook : Bytes → HookOutcome) :
    relay_messages st from_client (Except.error e) hook = Except.error e ∧
    handleWsEvent st from_client WsEvent.request hook =
      Except.error ("AssertionError: Unexpected WebSocket event") :=
  ⟨rfl, rfl⟩

/-- Claim C5 (corrected, counterexample): for a close observed from the
SERVER side (`from_client = false`, so the destination of the close is
the client side) with both codecs OPEN, the emitted command sequence
still processes the server-side codec first — the initiator's own side,
not the destination — refuting the claimed destination-first order. -/
theorem close_order_counterexample :
    handleWsEvent stBothOpen false (WsEvent.closeConnection 1006 ("")) hookId =
      Except.ok
        ({ stBothOpen with handler := Handler.doneH, closed_by_client := some false,
                           close_code := some 1006, close_reason := some (""),
                           flowError := some ("WebSocket Error: ABNORMAL_CLOSURE") },
         [Command.sendData ConnKind.server (WsEvent.closeConnection 1006 ("")),
          Command.closeConnection ConnKind.server,
          Command.sendData ConnKind.client (WsEvent.closeConnection 1006 ("")),
          Command.closeConnection ConnKind.client,
          Command.websocketErrorHook]) ∧
    dstKind false = ConnKind.client :=
  ⟨rfl, rfl⟩

/-- Claim C5 (amended): on a close event the two codecs are processed
in the FIXED order server-side first, then client-side, regardless of
which side initiated the close (this coincides with destination-first
only for client-initiated closes); for each codec in that order the
close event is encoded and sent only if its state is OPEN or
REMOTE_CLOSING, and a transport close command is emitted for it
unconditionally, followed by exactly one session hook command. -/
theorem close_order_fixed (st : WebsocketLayer) (from_client : Bool) (code : Nat)
    (reason : String) (hook : Bytes → HookOutcome) :
    ∃ st2 hookCmd,
      handleWsEvent st from_client (WsEvent.closeConnection code reason) hook =
        Except.ok (st2,
          (if st.server_ws.state = ConnectionState.OPEN ∨
              st.server_ws.state = ConnectionState.REMOTE_CLOSING
           then [Command.sendData ConnKind.server (WsEvent.closeConnection code reason)]
           else []) ++
          [Command.closeConnection ConnKind.server] ++
          ((if st.client_ws.state = ConnectionState.OPEN ∨
               st.client_ws.state = ConnectionState.REMOTE_CLOSING
            then [Command.sendData ConnKind.client (WsEvent.closeConnection code reason)]
            else []) ++
           [Command.closeConnection ConnKind.client] ++ [hookCmd])) := by
  refine ⟨(handleClose st from_client code reason).1,
          if code = 1000 ∨ code = 1001 ∨ code = 1005 then Command.websocketEndHook
          else Command.websocketErrorHook, ?_⟩
  have heq : handleWsEvent st from_client (WsEvent.closeConnection code reason) hook =
      Except.ok ((handleClose st from_client code reason).1,
                 (handleClose st from_client code reason).2) := rfl
  rw [heq]
  simp only [Except.ok.injEq, Prod.mk.injEq, true_and]
  unfold handleClose connShutdown
  by_cases h : code = 1000 ∨ code = 1001 ∨ code = 1005 <;> simp [h]

/-- Claim C6 (confirmed): a completed message whose hook outcome has
`killed = true` produces only the message-hook command — zero send
commands — while the message (with its edited content and the killed
flag) is still appended to the flow's message sequence, and the active
handler is unchanged, so the session continues. -/
theorem killed_message_suppressed (st : WebsocketLayer) (from_client : Bool)
    (data : Bytes) (isText : Bool) (hook : Bytes → HookOutcome)
    (hkill : (hook ((srcWs st from_client).frame_buf ++ [data]).flatten).killed = true) :
    ∃ st2,
      handleWsEvent st from_client (WsEvent.message data isText true) hook =
        Except.ok (st2, [Command.websocketMessageHook]) ∧
      st2.messages = st.messages ++
        [⟨isText, from_client,
          (hook ((srcWs st from_client).frame_buf ++ [data]).flatten).content, true⟩] ∧
      st2.handler = st.handler := by
  have heq : handleWsEvent st from_client (WsEvent.message data isText true) hook =
      Except.ok
        ({ setSrcWs st from_client { srcWs st from_client with frame_buf := [] } with
           messages := st.messages ++
             [⟨isText, from_client,
               (hook ((srcWs st from_client).frame_buf ++ [data]).flatten).content, true⟩] },
         [Command.websocketMessageHook]) := by
    rw [handleMessage_finished]
    simp at hkill ⊢
    simp [hkill]
  refine ⟨_, heq, ?_, ?_⟩
  · simp
  · cases from_client <;> simp [setSrcWs]

/-- Claim C6 witness: a two-byte binary message killed by the hook on a
layer with empty buffers. -/
theorem killed_message_suppressed_witness :
    ∃ st2,
      handleWsEvent stBothOpen true (WsEvent.message [1, 2] false true)
          (fun _ => ⟨[9], true⟩) =
        Except.ok (st2, [Command.websocketMessageHook]) ∧
      st2.messages = stBothOpen.messages ++ [⟨false, true, [9], true⟩] ∧
      st2.handler = stBothOpen.handler :=
  killed_message_suppressed stBothOpen true [1, 2] false (fun _ => ⟨[9], true⟩) rfl

/-- Claim C7 (confirmed): a close event observed from either side
yields transport close commands for BOTH connections and switches the
handler to `done`; the `done` handler accepts and discards every
further inbound event, emitting no commands, so nothing is forwarded
after the layer reaches DONE. -/
theorem shutdown_symmetry :
    (∀ (st : WebsocketLayer) (from_client : Bool) (code : Nat) (reason : String)
       (hook : Bytes → HookOutcome),
      ∃ st2 cmds,
        handleWsEvent st from_client (WsEvent.closeConnection code reason) hook =
          Except.ok (st2, cmds) ∧
        Command.closeConnection ConnKind.client ∈ cmds ∧
        Command.closeConnection ConnKind.server ∈ cmds ∧
        st2.handler = Handler.doneH) ∧
    (∀ (st : WebsocketLayer) (ev : NetEvent), done st ev = (st, [])) := by
  constructor
  · intro st from_client code reason hook
    refine ⟨(handleClose st from_client code reason).1,
            (handleClose st from_client code reason).2, rfl, ?_, ?_, ?_⟩ <;>
      (unfold handleClose connShutdown
       by_cases h : code = 1000 ∨ code = 1001 ∨ code = 1005 <;> simp [h])
  · intro st ev
    rfl

/-- Claim C8 (confirmed): a Ping or Pong event yields exactly one log
command identifying the frame kind, the originating side and the
payload, followed by exactly one send command forwarding the identical
event through the destination codec; the returned state is the input
state, so nothing is appended to the flow messages or either frame
buffer. -/
theorem ping_pong_passthrough (st : WebsocketLayer) (from_client : Bool)
    (payload : Bytes) (hook : Bytes → HookOutcome) :
    handleWsEvent st from_client (WsEvent.ping payload) hook =
      Except.ok (st, [Command.log (pingPongLog ("ping") from_client payload),
                      Command.sendData (dstKind from_client) (WsEvent.ping payload)]) ∧
    handleWsEvent st from_client (WsEvent.pong payload) hook =
      Except.ok (st, [Command.log (pingPongLog ("pong") from_client payload),
                      Command.sendData (dstKind from_client) (WsEvent.pong payload)]) :=
  ⟨rfl, rfl⟩

/-- Claim C9 (confirmed): `Fragmentizer.__call__` yields zero parts on
empty content, and a completed message whose content the hook edits to
empty produces only the message-hook command and zero send commands. -/
theorem empty_content_no_parts :
    (∀ f : Fragmentizer, f.call [] = []) ∧
    (∀ (st : WebsocketLayer) (from_client : Bool) (data : Bytes) (isText : Bool),
      ∃ st2,
        handleWsEvent st from_client (WsEvent.message data isText true)
            (fun _ => ⟨[], false⟩) =
          Except.ok (st2, [Command.websocketMessageHook])) := by
  constructor
  · intro f
    simp [Fragmentizer.call]
  · intro st from_client data isText
    have heq : handleWsEvent st from_client (WsEvent.message data isText true)
        (fun _ => ⟨[], false⟩) =
      Except.ok
        ({ setSrcWs st from_client { srcWs st from_client with frame_buf := [] } with
           messages := st.messages ++ [⟨isText, from_client, [], false⟩] },
         [Command.websocketMessageHook]) := by
      rw [handleMessage_finished]
      simp [Fragmentizer.call]
    exact ⟨_, heq⟩

/-- Claim C10 (confirmed): the fragment list handed to the
`Fragmentizer` constructor is the frame buffer with the final fragment
just appended, hence non-empty; the `assert fragments` never fails and
handling a finished message always succeeds. -/
theorem fragmentizer_construction_total (st : WebsocketLayer) (from_client : Bool)
    (data : Bytes) (isText : Bool) (hook : Bytes → HookOutcome) :
    (Fragmentizer.make ((srcWs st from_client).frame_buf ++ [data]) isText).isSome = true ∧
    ∃ st2 cmds,
      handleWsEvent st from_client (WsEvent.message data isText true) hook =
        Except.ok (st2, cmds) := by
  constructor
  · rw [Fragmentizer.make_append]
    rfl
  · exact ⟨_, _, handleMessage_finished st from_client data isText hook⟩

end Mitmproxy
